import Mathlib

/-!
# Verification of the ATS test-suite line-role classifier

Shallow embedding of the resume line-role classification and document
conversion logic of `generate_docx.py` and `generate_pdf.py`
(directory `docs/Test Resumes/ATS-Test-Suite/`).

Strings are modelled as `List Char`; Python string methods (`strip`,
`isupper`, `lower`, `split`, `replace`, `startswith`, `in`) are embedded
as executable functions over character lists, restricted to the ASCII
behaviour of those methods (plus the one non-ASCII letter `Ó`/`ó` that
occurs in the source's marker set).
-/

namespace ATS

/-- The semantic role of one line of resume text (spec §3 vocabulary;
in the code each role corresponds to one branch of the formatting
dispatch in `create_docx_from_text`). -/
inductive Role where
  | Title
  | Contact
  | SectionHeader
  | JobTitle
  | Bullet
  | Body
  | Blank
deriving DecidableEq, Repr

/-- The whitespace characters stripped by Python `str.strip()`
(ASCII subset). -/
def pySpace (c : Char) : Bool :=
  c = ' ' || c = '\t' || c = '\n' || c = '\x0b' || c = '\x0c' || c = '\r'

/-- Python `str.strip()`: drop leading and trailing whitespace. -/
def stripL (l : List Char) : List Char :=
  ((l.dropWhile pySpace).reverse.dropWhile pySpace).reverse

/-- A cased character (ASCII model): a letter. -/
def cased (c : Char) : Bool := c.isAlpha

/-- Python `str.isupper()`: at least one cased character and every
cased character is uppercase. -/
def isupperStr (l : List Char) : Bool :=
  l.any cased && l.all (fun c => !cased c || c.isUpper)

/-- Python single-character lowercasing as used via `str.lower()` in the
source: ASCII `toLower`, extended with the one non-ASCII uppercase letter
`Ó` appearing in the source's marker vocabulary. -/
def pyLower (c : Char) : Char :=
  if c = 'Ó' then 'ó' else c.toLower

/-- Python `str.lower()` over the modelled character set. -/
def lowerL (l : List Char) : List Char := l.map pyLower

/-- Python substring containment `sub in s`. -/
def containsSub (sub : List Char) : List Char → Bool
  | [] => sub.isEmpty
  | c :: rest => sub.isPrefixOf (c :: rest) || containsSub sub rest

/-- Python single-character containment `c in s`. -/
def hasChar (c : Char) : List Char → Bool
  | [] => false
  | d :: rest => d = c || hasChar c rest

/-- Python `line.startswith(c)` for a one-character pattern. -/
def startsWithChar (c : Char) : List Char → Bool
  | [] => false
  | d :: _ => d = c

/-- Python `line[0].isupper()` as a total function (callers guard non-emptiness). -/
def headIsUpper : List Char → Bool
  | [] => false
  | c :: _ => c.isUpper

/-- Python `str.split(sep)`: split at every occurrence of the separator,
keeping empty segments; splitting the empty string yields `[[]]`. -/
def pySplit (sep : Char) : List Char → List (List Char)
  | [] => [[]]
  | c :: rest =>
    match pySplit sep rest with
    | [] => [[c]]
    | h :: t => if c = sep then [] :: h :: t else (c :: h) :: t

/-- The fixed multilingual section-keyword list of
`generate_docx.py` lines 44-58 (identical in `generate_pdf.py`
lines 33-47). -/
def sectionKeywords : List (List Char) :=
  [String.data "EXPERIENCE", String.data "EDUCATION", String.data "SKILLS",
   String.data "EXPERIENCIA", String.data "EDUCACIÓN", String.data "HABILIDADES",
   String.data "WORK EXPERIENCE", String.data "CAREER HISTORY",
   String.data "PROFESSIONAL SUMMARY", String.data "TECHNICAL SKILLS",
   String.data "CERTIFICATIONS", String.data "PROJECTS",
   String.data "PUBLICATIONS", String.data "AWARDS", String.data "LANGUAGES"]

/-- The chain of `line.startswith(...)` keyword checks. -/
def startsAnyKeyword (l : List Char) : Bool :=
  sectionKeywords.any (fun k => k.isPrefixOf l)

/-- The `is_header` predicate (generate_docx.py lines 41-59), as the total
Boolean it evaluates to on every non-empty line:
`line.isupper() or (len(line) < 50 and line[0].isupper() and '|' not in line)
or line.startswith(<keyword>) ...`. -/
def is_headerB (l : List Char) : Bool :=
  isupperStr l ||
  (decide (l.length < 50) && headIsUpper l && !(hasChar '|' l)) ||
  startsAnyKeyword l

/-- The contact-marker disjunction of generate_docx.py lines 64-65:
`'@' in line or 'phone' in line.lower() or 'tel' in line.lower() or
'linkedin' in line.lower() or 'location' in line.lower() or
'ubicación' in line.lower()`. -/
def hasContactMarker (l : List Char) : Bool :=
  containsSub (String.data "@") l ||
  containsSub (String.data "phone") (lowerL l) ||
  containsSub (String.data "tel") (lowerL l) ||
  containsSub (String.data "linkedin") (lowerL l) ||
  containsSub (String.data "location") (lowerL l) ||
  containsSub (String.data "ubicación") (lowerL l)

/-- The `is_contact` predicate (generate_docx.py lines 62-66):
`i < 3 and (<marker disjunction>)`. -/
def is_contact (pos : Nat) (l : List Char) : Bool :=
  decide (pos < 3) && hasContactMarker l

/-- The `is_job_title` predicate (generate_docx.py line 69):
`'|' in line and len(line.split('|')) >= 2`. -/
def is_job_title (l : List Char) : Bool :=
  hasChar '|' l && decide (2 ≤ (pySplit '|' l).length)

/-- The `is_bullet` predicate (generate_docx.py line 72):
`line.startswith('•') or line.startswith('-') or line.startswith('*')`. -/
def is_bullet (l : List Char) : Bool :=
  startsWithChar '•' l || startsWithChar '-' l || startsWithChar '*' l

/-- Condition of the first formatting branch (generate_docx.py line 77):
`is_contact or (i == 0 and len(line) < 100)`. -/
def contactOrTitle (pos : Nat) (l : List Char) : Bool :=
  is_contact pos l || (decide (pos = 0) && decide (l.length < 100))

/-- The role assigned to an already-stripped line by the formatting
dispatch of generate_docx.py lines 35-102, branch by branch.  Inside the
first branch the rendering distinguishes the document-title line solely
by `i == 0` (font size 14 at position 0, 11 otherwise), which is the
Title/Contact distinction of the spec's role vocabulary. -/
def classifyStripped (l : List Char) (pos : Nat) : Role :=
  if l = [] then Role.Blank
  else if contactOrTitle pos l then (if pos = 0 then Role.Title else Role.Contact)
  else if is_headerB l then Role.SectionHeader
  else if is_job_title l then Role.JobTitle
  else if is_bullet l then Role.Bullet
  else Role.Body

/-- Function `classify(line, position)`: strip the raw line (generate_docx.py
line 33) and dispatch. -/
def classify (s : String) (pos : Nat) : Role :=
  classifyStripped (stripL s.data) pos

/-! ## Exception-sensitive embedding of the header check

Python evaluates `line[0]` inside `is_header`; on an empty string this
raises `IndexError`.  The `Except`-valued versions below record exactly
where the source could raise, following Python's left-to-right
short-circuit evaluation. -/

/-- The inline header check of `create_docx_from_text`
(generate_docx.py lines 41-59), with the possible `IndexError` of
`line[0]` made explicit: `line[0]` is reached only when
`line.isupper()` is false and `len(line) < 50`. -/
def isHeaderDocxE (l : List Char) : Except String Bool :=
  if isupperStr l then Except.ok true
  else if l.length < 50 then
    match l with
    | [] => Except.error "IndexError: string index out of range"
    | c :: _ => Except.ok ((c.isUpper && !(hasChar '|' l)) || startsAnyKeyword l)
  else Except.ok (startsAnyKeyword l)

/-- The `is_header` function of generate_pdf.py lines 28-48, with the
possible `IndexError` of `line[0]` made explicit.  Its body is the same
predicate chain as the inline check in generate_docx.py. -/
def isHeaderPdfE (l : List Char) : Except String Bool :=
  if isupperStr l then Except.ok true
  else if l.length < 50 then
    match l with
    | [] => Except.error "IndexError: string index out of range"
    | c :: _ => Except.ok ((c.isUpper && !(hasChar '|' l)) || startsAnyKeyword l)
  else Except.ok (startsAnyKeyword l)

/-- The classification dispatch over an already-stripped line with the
possible `IndexError` of the header check made explicit: the blank
guard (generate_docx.py line 35) runs before any predicate that indexes
into the line. -/
def classifyStrippedE (l : List Char) (pos : Nat) : Except String Role :=
  if l = [] then Except.ok Role.Blank
  else if contactOrTitle pos l then
    Except.ok (if pos = 0 then Role.Title else Role.Contact)
  else
    match isHeaderDocxE l with
    | Except.error e => Except.error e
    | Except.ok true => Except.ok Role.SectionHeader
    | Except.ok false =>
      if is_job_title l then Except.ok Role.JobTitle
      else if is_bullet l then Except.ok Role.Bullet
      else Except.ok Role.Body

/-- Function `classify` with the possible `IndexError` made explicit. -/
def classifyE (s : String) (pos : Nat) : Except String Role :=
  classifyStrippedE (stripL s.data) pos

/-! ## The DOCX document model (text→DOCX path) -/

/-- One DOCX paragraph as produced by `create_docx_from_text`: its text
(concatenation of its runs), whether its first run is bold, whether the
paragraph is centered, whether it uses the `List Bullet` style, and the
font size in points of its run (default 11 from the Normal style). -/
structure Para where
  text : List Char
  bold : Bool
  centered : Bool
  listBullet : Bool
  size : Nat
deriving DecidableEq, Repr

/-- Python `line.lstrip('•-* ')` (generate_docx.py line 97). -/
def lstripBulletChars (l : List Char) : List Char :=
  l.dropWhile (fun c => c = '•' || c = '-' || c = '*' || c = ' ')

/-- The paragraph written for the line at index `i` by one iteration of
the loop in generate_docx.py lines 32-102: blank lines get an empty
paragraph; otherwise the branch taken by the formatting dispatch fixes
boldness, alignment, style and font size. -/
def mkPara (i : Nat) (raw : List Char) : Para :=
  let line := stripL raw
  if line = [] then ⟨[], false, false, false, 11⟩
  else if contactOrTitle i line then
    ⟨line, true, true, false, if i = 0 then 14 else 11⟩
  else if is_headerB line then ⟨line, true, false, false, 12⟩
  else if is_job_title line then ⟨line, true, false, false, 11⟩
  else if is_bullet line then ⟨lstripBulletChars line, false, false, true, 11⟩
  else ⟨line, false, false, false, 11⟩

/-- Python `content.split('\n')` (generate_docx.py line 31). -/
def pyLinesOf (content : List Char) : List (List Char) := pySplit '\n' content

/-- The document-building loop: each iteration appends exactly one
paragraph to the document (`doc.add_paragraph` is called once per line,
blank or not). -/
def processLines (doc : List Para) (i : Nat) : List (List Char) → List Para
  | [] => doc
  | raw :: rest => processLines (doc ++ [mkPara i raw]) (i + 1) rest

/-- The full text→DOCX paragraph sequence for a document's text content
(generate_docx.py lines 30-102). -/
def docxParas (content : String) : List Para :=
  processLines [] 0 (pyLinesOf content.data)

/-! ## The DOCX→PDF path (generate_pdf.py) -/

/-- Function `clean_text` (generate_pdf.py lines 20-26): each of `•`, `—`, `–`
is replaced by `-` (single-character `str.replace`, i.e. a map). -/
def cleanText (l : List Char) : List Char :=
  l.map (fun c => if c = '•' || c = '—' || c = '–' then '-' else c)

/-- The style decision of `create_pdf_from_docx` for one paragraph read
back from the DOCX (generate_pdf.py lines 110-151), expressed in the
Role vocabulary following the source's own comments: empty text →
spacer (`Blank`); `is_header(text) and not is_bold` → "Section header";
the bold short-line branch → "Name or job title", centered 12pt when
`'@' in text or '|' not in text` (name, `Title`) and left 10pt
otherwise (`JobTitle`); a leading `-` or `*` → "Bullet point"; else
regular text (`Body`).  `is_bold` is the first run's bold flag; a
paragraph with no runs leaves it false. -/
def pdfClassifyText : List Char → Bool → Role
  | [], _ => Role.Blank
  | c :: rest, isBold =>
    if is_headerB (c :: rest) && !isBold then Role.SectionHeader
    else if isBold && decide ((c :: rest).length < 100) &&
        (hasChar '@' (c :: rest) || hasChar '|' (c :: rest) || c.isUpper) then
      (if hasChar '@' (c :: rest) || !(hasChar '|' (c :: rest)) then Role.Title
       else Role.JobTitle)
    else if c = '-' || c = '*' then Role.Bullet
    else Role.Body

/-- The style decision applied to a paragraph read back from the DOCX:
its cleaned, stripped text plus the first run's bold flag (a paragraph
with no runs leaves `is_bold` false). -/
def pdfClassify (p : Para) : Role :=
  pdfClassifyText (cleanText (stripL p.text)) p.bold

/-- The same style decision with the possible `IndexError` of
`is_header` made explicit: `is_header(text)` is called only after the
`if not text: continue` guard (generate_pdf.py line 113), and
`text[0].isupper()` on line 133 is reached only with non-empty text. -/
def pdfClassifyTextE : List Char → Bool → Except String Role
  | [], _ => Except.ok Role.Blank
  | c :: rest, isBold =>
    match isHeaderPdfE (c :: rest) with
    | Except.error e => Except.error e
    | Except.ok h =>
      if h && !isBold then Except.ok Role.SectionHeader
      else if isBold && decide ((c :: rest).length < 100) &&
          (hasChar '@' (c :: rest) || hasChar '|' (c :: rest) || c.isUpper) then
        Except.ok (if hasChar '@' (c :: rest) || !(hasChar '|' (c :: rest)) then
          Role.Title else Role.JobTitle)
      else if c = '-' || c = '*' then Except.ok Role.Bullet
      else Except.ok Role.Body

/-- Function `pdfClassify` with the possible `IndexError` made explicit. -/
def pdfClassifyE (p : Para) : Except String Role :=
  pdfClassifyTextE (cleanText (stripL p.text)) p.bold

/-! ## Output filenames -/

/-- Python `str.replace(pat, rep)` over character lists: replace every
non-overlapping occurrence, scanning left to right.  The fuel argument
(instantiated with the list length) makes the recursion structural; each
step consumes at least one character, so the fuel never runs out. -/
def pyReplaceAux (pat rep : List Char) : Nat → List Char → List Char
  | 0, l => l
  | _ + 1, [] => []
  | fuel + 1, c :: rest =>
    if !pat.isEmpty && pat.isPrefixOf (c :: rest) then
      rep ++ pyReplaceAux pat rep fuel ((c :: rest).drop pat.length)
    else c :: pyReplaceAux pat rep fuel rest

/-- Python `str.replace(pat, rep)` on a character list. -/
def pyReplaceL (pat rep l : List Char) : List Char :=
  pyReplaceAux pat rep l.length l

/-- Output name of the text→DOCX conversion (generate_docx.py line 15):
`text_file.replace('.txt', '.docx')`. -/
def docxNameL (f : List Char) : List Char :=
  pyReplaceL (String.data ".txt") (String.data ".docx") f

/-- Output name of the DOCX→PDF conversion (generate_pdf.py line 52):
`docx_file.replace('.docx', '.pdf')`. -/
def pdfNameL (f : List Char) : List Char :=
  pyReplaceL (String.data ".docx") (String.data ".pdf") f

/-- String-level wrapper for the text→DOCX output name. -/
def docxName (f : String) : String := String.mk (docxNameL f.data)

/-- String-level wrapper for the DOCX→PDF output name. -/
def pdfName (f : String) : String := String.mk (pdfNameL f.data)

/-- Occurrence test `pat.isPrefixOf (l.drop i)`: the pattern occurs in `l` at index `i`. -/
def occursAt (pat l : List Char) (i : Nat) : Bool :=
  pat.isPrefixOf (l.drop i)

/-! ## The per-file batch loop (generate_docx.py `main`, lines 109-123) -/

/-- Outcome of one attempted conversion, printed by the loop body: on
success the `Created:` line (generate_docx.py line 106), on an exception
the `except` handler's message naming the file (line 123). -/
def convertMessage (convert : String → Except String String) (f : String) : String :=
  match convert f with
  | Except.ok out => "Created: " ++ out
  | Except.error e => "Error converting " ++ f ++ ": " ++ e

/-- The per-file loop: each discovered file is attempted exactly once
(no retry), its exception caught at the loop body, and the loop moves
to the next file. -/
def batchMessages (convert : String → Except String String) (files : List String) : List String :=
  files.map (convertMessage convert)

/-- Observable outcome of a whole run of `main`. -/
structure RunOutcome where
  messages : List String
  exitCode : Nat
deriving DecidableEq, Repr

/-- Function `main` (generate_docx.py lines 109-123): report when no files are
found, otherwise run the per-file loop; the function always returns
normally, so the process exit status is 0. -/
def mainDocx (convert : String → Except String String) (files : List String) : RunOutcome :=
  if files = [] then ⟨["No resume text files found!"], 0⟩
  else
    ⟨("Found " ++ toString files.length ++ " text files to convert...") ::
      batchMessages convert files, 0⟩

/-! ## Priority-rule relation (spec §4.1 decision policy, read off the
branch structure of generate_docx.py lines 35-102) -/

/-- Relation `RuleFires l pos r`: rule `r` of the ordered decision policy fires
for the stripped line `l` at position `pos`; each constructor carries
its own guard together with the negations of all earlier guards, as the
first-match-wins ordering demands. -/
inductive RuleFires : List Char → Nat → Role → Prop where
  | blank (pos : Nat) : RuleFires [] pos Role.Blank
  | title (l : List Char) (pos : Nat) (hne : l ≠ [])
      (hct : contactOrTitle pos l = true) (h0 : pos = 0) :
      RuleFires l pos Role.Title
  | contact (l : List Char) (pos : Nat) (hne : l ≠ [])
      (hct : contactOrTitle pos l = true) (h0 : pos ≠ 0) :
      RuleFires l pos Role.Contact
  | header (l : List Char) (pos : Nat) (hne : l ≠ [])
      (hct : contactOrTitle pos l = false) (hh : is_headerB l = true) :
      RuleFires l pos Role.SectionHeader
  | jobTitle (l : List Char) (pos : Nat) (hne : l ≠ [])
      (hct : contactOrTitle pos l = false) (hh : is_headerB l = false)
      (hj : is_job_title l = true) :
      RuleFires l pos Role.JobTitle
  | bullet (l : List Char) (pos : Nat) (hne : l ≠ [])
      (hct : contactOrTitle pos l = false) (hh : is_headerB l = false)
      (hj : is_job_title l = false) (hb : is_bullet l = true) :
      RuleFires l pos Role.Bullet
  | body (l : List Char) (pos : Nat) (hne : l ≠ [])
      (hct : contactOrTitle pos l = false) (hh : is_headerB l = false)
      (hj : is_job_title l = false) (hb : is_bullet l = false) :
      RuleFires l pos Role.Body

/-- A concrete conversion map used to exercise the batch loop: one file
fails, the others succeed. -/
def convertSample : String → Except String String := fun f =>
  if f = "resume-2.txt" then Except.error "boom" else Except.ok (docxName f)

/-- Name of the text-file source used by the PDF fallback
(generate_pdf.py line 162): `docx_file.replace('.docx', '.txt')`. -/
def txtName (f : String) : String :=
  String.mk (pyReplaceL (String.data ".docx") (String.data ".txt") f.data)

/-- Messages printed by one call of `create_pdf_from_docx`
(generate_pdf.py lines 54-166): on success of the primary conversion
one `Created:` line; on its failure the error message naming the file,
followed by a second conversion attempt of the same file — the
text-file fallback `create_simple_pdf_from_text` — which adds either
its own `Created (from text):` line (generate_pdf.py line 193) or
`Fallback also failed:` (line 165).  The function returns normally in
every case. -/
def pdfConvertMessages (primary fallback : String → Except String Unit)
    (docxFile : String) : List String :=
  match primary docxFile with
  | Except.ok _ => ["Created: " ++ pdfName docxFile]
  | Except.error e =>
    ("Error converting " ++ docxFile ++ " to PDF: " ++ e) ::
      (match fallback (txtName docxFile) with
       | Except.ok _ => ["Created (from text): " ++ pdfName docxFile]
       | Except.error e2 => ["Fallback also failed: " ++ e2])

/-- A primary DOCX→PDF conversion that always fails, exercising the
fallback path. -/
def primarySample : String → Except String Unit := fun _ =>
  Except.error "NotImplementedError"

/-- A text-file fallback conversion that succeeds. -/
def fallbackSample : String → Except String Unit := fun _ => Except.ok ()

/-- A 100-character line that contains the `@` contact marker, used to
exercise the position-0 corner where the Title rule's length bound
fails but the first formatting branch still fires on `is_contact`. -/
def longContactLine : String :=
  "john@example.comxxxxxxxxxxxxxxxxxxxxxxxxxxxxxxxxxxxxxxxxxxxxxxxxxxxxxxxxxxxxxxxxxxxxxxxxxxxxxxxxxxxx"

/-! ## Helper lemmas -/

theorem stripL_of_all_space {l : List Char} (h : ∀ c ∈ l, pySpace c = true) :
    stripL l = [] := by
  unfold stripL
  have h1 : l.dropWhile pySpace = [] := List.dropWhile_eq_nil_iff.mpr (by simpa using h)
  rw [h1]
  simp

theorem isupperStr_ne_nil {l : List Char} (h : isupperStr l = true) : l ≠ [] := by
  intro e
  subst e
  simp [isupperStr] at h

theorem isHeaderDocxE_cons (c : Char) (rest : List Char) :
    isHeaderDocxE (c :: rest) = Except.ok (is_headerB (c :: rest)) := by
  unfold isHeaderDocxE is_headerB
  by_cases hu : isupperStr (c :: rest) = true
  · simp [hu]
  · rw [Bool.not_eq_true] at hu
    by_cases hl : (c :: rest).length < 50 <;>
      simp only [List.length_cons] at hl <;> simp [hu, hl, headIsUpper]

theorem isHeaderPdfE_eq_docx (l : List Char) : isHeaderPdfE l = isHeaderDocxE l := rfl

theorem classifyStrippedE_ok (l : List Char) (pos : Nat) :
    classifyStrippedE l pos = Except.ok (classifyStripped l pos) := by
  unfold classifyStrippedE classifyStripped
  by_cases h0 : l = []
  · simp [h0]
  · rw [if_neg h0, if_neg h0]
    by_cases hct : contactOrTitle pos l = true
    · simp [hct]
    · rw [Bool.not_eq_true] at hct
      obtain ⟨c, rest, rfl⟩ : ∃ c rest, l = c :: rest := by
        cases l with
        | nil => exact absurd rfl h0
        | cons c rest => exact ⟨c, rest, rfl⟩
      rw [isHeaderDocxE_cons]
      simp only [hct, Bool.false_eq_true, if_false]
      cases hh : is_headerB (c :: rest) with
      | true => simp
      | false =>
        by_cases hj : is_job_title (c :: rest) = true
        · simp [hj]
        · by_cases hb : is_bullet (c :: rest) = true <;> simp [hj, hb]

theorem pdfClassifyTextE_ok (text : List Char) (isBold : Bool) :
    pdfClassifyTextE text isBold = Except.ok (pdfClassifyText text isBold) := by
  cases text with
  | nil => rfl
  | cons c rest =>
    simp only [pdfClassifyTextE, pdfClassifyText]
    rw [isHeaderPdfE_eq_docx, isHeaderDocxE_cons]
    cases hh : is_headerB (c :: rest) <;> cases isBold <;>
      simp <;> split <;> (try rfl) <;> (try (split <;> rfl))

theorem pySplit_ne_nil (sep : Char) (l : List Char) : pySplit sep l ≠ [] := by
  cases l with
  | nil => simp [pySplit]
  | cons c rest =>
    simp only [pySplit]
    split
    · simp
    · split <;> simp

theorem two_le_pySplit_length {sep : Char} {l : List Char}
    (h : hasChar sep l = true) : 2 ≤ (pySplit sep l).length := by
  induction l with
  | nil => simp [hasChar] at h
  | cons c rest ih =>
    simp only [pySplit]
    cases hp : pySplit sep rest with
    | nil => exact absurd hp (pySplit_ne_nil sep rest)
    | cons hd tl =>
      show 2 ≤ (if c = sep then [] :: hd :: tl else (c :: hd) :: tl).length
      by_cases hc : c = sep
      · simp [hc]
      · have hrest : hasChar sep rest = true := by
          simp only [hasChar, Bool.or_eq_true, decide_eq_true_eq] at h
          rcases h with h | h
          · exact absurd h hc
          · exact h
        have h2 := ih hrest
        rw [hp] at h2
        simp only [List.length_cons] at h2
        simp [hc]
        omega

theorem is_job_title_eq_hasChar (l : List Char) :
    is_job_title l = hasChar '|' l := by
  unfold is_job_title
  cases h : hasChar '|' l with
  | false => simp
  | true => simp [two_le_pySplit_length h]

theorem processLines_eq (ls : List (List Char)) :
    ∀ (doc : List Para) (i : Nat),
      processLines doc i ls = doc ++ (ls.enumFrom i).map (fun p => mkPara p.1 p.2) := by
  induction ls with
  | nil => intro doc i; simp [processLines]
  | cons raw rest ih =>
    intro doc i
    rw [processLines, ih, List.enumFrom_cons]
    simp

theorem classifyStripped_ne_contact {l : List Char} {pos : Nat}
    (h : contactOrTitle pos l = false) :
    classifyStripped l pos ≠ Role.Contact := by
  unfold classifyStripped
  by_cases h0 : l = []
  · simp [h0]
  · rw [if_neg h0, h]
    simp only [Bool.false_eq_true, if_false]
    split
    · simp
    · split
      · simp
      · split <;> simp

theorem ruleFires_classifyStripped (l : List Char) (pos : Nat) :
    RuleFires l pos (classifyStripped l pos) := by
  unfold classifyStripped
  by_cases h0 : l = []
  · subst h0
    simp only [if_pos rfl]
    exact RuleFires.blank pos
  · rw [if_neg h0]
    by_cases hct : contactOrTitle pos l = true
    · rw [if_pos hct]
      by_cases hp : pos = 0
      · rw [if_pos hp]
        exact RuleFires.title l pos h0 hct hp
      · rw [if_neg hp]
        exact RuleFires.contact l pos h0 hct hp
    · rw [Bool.not_eq_true] at hct
      rw [hct]
      simp only [Bool.false_eq_true, if_false]
      by_cases hh : is_headerB l = true
      · rw [if_pos hh]
        exact RuleFires.header l pos h0 hct hh
      · rw [Bool.not_eq_true] at hh
        rw [hh]
        simp only [Bool.false_eq_true, if_false]
        by_cases hj : is_job_title l = true
        · rw [if_pos hj]
          exact RuleFires.jobTitle l pos h0 hct hh hj
        · rw [Bool.not_eq_true] at hj
          rw [hj]
          simp only [Bool.false_eq_true, if_false]
          by_cases hb : is_bullet l = true
          · rw [if_pos hb]
            exact RuleFires.bullet l pos h0 hct hh hj hb
          · rw [Bool.not_eq_true] at hb
            rw [hb]
            simp only [Bool.false_eq_true, if_false]
            exact RuleFires.body l pos h0 hct hh hj hb

theorem ruleFires_det {l : List Char} {pos : Nat} {r₁ r₂ : Role}
    (h₁ : RuleFires l pos r₁) (h₂ : RuleFires l pos r₂) : r₁ = r₂ := by
  cases h₁ <;> cases h₂ <;> simp_all

theorem pyReplaceAux_nil (pat rep : List Char) (n : Nat) :
    pyReplaceAux pat rep n [] = [] := by
  cases n <;> rfl

theorem pyReplaceAux_stem_append (pat rep : List Char) (hp : pat ≠ []) :
    ∀ (stem : List Char) (n : Nat),
      (∀ i, i < stem.length → occursAt pat (stem ++ pat) i = false) →
      (stem ++ pat).length ≤ n →
      pyReplaceAux pat rep n (stem ++ pat) = stem ++ rep := by
  intro stem
  induction stem with
  | nil =>
    intro n h hn
    simp only [List.nil_append] at hn ⊢
    obtain ⟨pc, prest, rfl⟩ : ∃ pc prest, pat = pc :: prest := by
      cases pat with
      | nil => exact absurd rfl hp
      | cons pc prest => exact ⟨pc, prest, rfl⟩
    cases n with
    | zero => simp at hn
    | succ m =>
      simp only [pyReplaceAux]
      have hpre : (pc :: prest).isPrefixOf (pc :: prest) = true := by
        simp [List.isPrefixOf_iff_prefix]
      rw [show (!(pc :: prest).isEmpty && (pc :: prest).isPrefixOf (pc :: prest)) = true by
        simp [hpre]]
      simp only [if_pos]
      rw [List.drop_length, pyReplaceAux_nil]
      simp
  | cons c stem' ih =>
    intro n h hn
    have h0 : pat.isPrefixOf (c :: (stem' ++ pat)) = false := by
      have h0' := h 0 (by simp)
      unfold occursAt at h0'
      simpa using h0'
    cases n with
    | zero =>
      exfalso
      simp at hn
    | succ m =>
      show pyReplaceAux pat rep (m + 1) (c :: (stem' ++ pat)) = c :: (stem' ++ rep)
      simp only [pyReplaceAux]
      rw [show (!pat.isEmpty && pat.isPrefixOf (c :: (stem' ++ pat))) = false by
        simp [h0]]
      simp only [Bool.false_eq_true, if_false]
      have hshift : ∀ i, i < stem'.length → occursAt pat (stem' ++ pat) i = false := by
        intro i hi
        have hh := h (i + 1) (by simp only [List.length_cons]; omega)
        unfold occursAt at hh ⊢
        simpa [List.drop_succ_cons] using hh
      have hm : (stem' ++ pat).length ≤ m := by
        simp only [List.cons_append, List.length_cons] at hn
        omega
      rw [ih m hshift hm]

/-! ## Claim theorems -/

/-- C1: a non-blank line with at least one letter and no lowercase
letters (Python `isupper`) that contains the pipe character, classified
at a position where the Title/Contact branch does not apply, is a
SectionHeader and not a JobTitle: the all-caps disjunct of rule 4 fires
before the pipe rule 5. -/
theorem allcaps_pipe_is_section_header (s : String) (pos : Nat)
    (hct : contactOrTitle pos (stripL s.data) = false)
    (hu : isupperStr (stripL s.data) = true)
    (hp : hasChar '|' (stripL s.data) = true) :
    classify s pos = Role.SectionHeader ∧ classify s pos ≠ Role.JobTitle := by
  have hne := isupperStr_ne_nil hu
  have hh : is_headerB (stripL s.data) = true := by
    simp [is_headerB, hu]
  unfold classify classifyStripped
  rw [if_neg hne, if_neg (by simp [hct] : ¬contactOrTitle pos (stripL s.data) = true),
    if_pos hh]
  simp

/-- Witness for C1 at the spec's regression example. -/
theorem allcaps_pipe_is_section_header_witness :
    classify "SENIOR ENGINEER | TECHCORP" 5 = Role.SectionHeader ∧
    classify "SENIOR ENGINEER | TECHCORP" 5 ≠ Role.JobTitle :=
  allcaps_pipe_is_section_header "SENIOR ENGINEER | TECHCORP" 5
    (by decide) (by decide) (by decide)

/-- C2 counterexample: at the line `"x|"`, position 5, every earlier
rule fails and splitting on the pipe yields only one non-empty segment,
yet the code classifies the line JobTitle, because
`len(line.split('|')) >= 2` counts empty segments as well. -/
theorem job_title_nonempty_segments_counterexample :
    classify "x|" 5 = Role.JobTitle ∧
    contactOrTitle 5 (stripL (String.data "x|")) = false ∧
    is_headerB (stripL (String.data "x|")) = false ∧
    ((pySplit '|' (stripL (String.data "x|"))).filter
      (fun seg => !seg.isEmpty)).length < 2 := by
  decide

/-- C2 amended: for a non-blank line at a position where the
Title/Contact branch and the SectionHeader rule do not apply, the
classification is JobTitle exactly when the line contains `'|'` —
the code's count `len(line.split('|'))`, which includes empty segments,
is ≥ 2 exactly when `'|'` occurs — and without a pipe the line falls
through to the Bullet and Body rules. -/
theorem pipe_rule_job_title (s : String) (pos : Nat)
    (hne : stripL s.data ≠ [])
    (hct : contactOrTitle pos (stripL s.data) = false)
    (hh : is_headerB (stripL s.data) = false) :
    (classify s pos = Role.JobTitle ↔ hasChar '|' (stripL s.data) = true) ∧
    is_job_title (stripL s.data) = hasChar '|' (stripL s.data) ∧
    (hasChar '|' (stripL s.data) = false →
      classify s pos = Role.Bullet ∨ classify s pos = Role.Body) := by
  have hj := is_job_title_eq_hasChar (stripL s.data)
  cases hpipe : hasChar '|' (stripL s.data) with
  | true =>
    have hcls : classify s pos = Role.JobTitle := by
      unfold classify classifyStripped
      rw [if_neg hne, if_neg (by simp [hct] : ¬contactOrTitle pos (stripL s.data) = true),
        if_neg (by simp [hh] : ¬is_headerB (stripL s.data) = true),
        if_pos (by rw [hj, hpipe] : is_job_title (stripL s.data) = true)]
    exact ⟨by simp [hcls], hj.trans hpipe, fun h => absurd h (by simp)⟩
  | false =>
    have hjf : is_job_title (stripL s.data) = false := by rw [hj, hpipe]
    have hcls : classify s pos =
        (if is_bullet (stripL s.data) = true then Role.Bullet else Role.Body) := by
      unfold classify classifyStripped
      rw [if_neg hne, if_neg (by simp [hct] : ¬contactOrTitle pos (stripL s.data) = true),
        if_neg (by simp [hh] : ¬is_headerB (stripL s.data) = true),
        if_neg (by simp [hjf] : ¬is_job_title (stripL s.data) = true)]
    refine ⟨?_, hj.trans hpipe, fun _ => ?_⟩
    · rw [hcls]
      apply iff_of_false
      · by_cases hb : is_bullet (stripL s.data) = true
        · rw [if_pos hb]
          simp
        · rw [if_neg hb]
          simp
      · simp
    · rw [hcls]
      by_cases hb : is_bullet (stripL s.data) = true
      · left
        rw [if_pos hb]
      · right
        rw [if_neg hb]

/-- Witness for the amended C2 at the spec's pipe-rule example. -/
theorem pipe_rule_job_title_witness :
    classify "Senior Engineer | TechCorp | SF" 5 = Role.JobTitle :=
  (pipe_rule_job_title "Senior Engineer | TechCorp | SF" 5 (by decide) (by decide)
    (by decide)).1.mpr (by decide)

/-- C3 counterexample: the two conversion paths do not assign the same
role to the same source line.  The bullet line loses its glyph in the
DOCX (text `Built pipelines`, non-bold run, List Bullet style); reading
that paragraph back, the PDF path's `is_header` sees a short line with
an uppercase first character and no pipe and restyles it as a section
header. -/
theorem docx_pdf_role_mismatch :
    classify "• Built pipelines" 2 = Role.Bullet ∧
    pdfClassify (mkPara 2 (String.data "• Built pipelines")) = Role.SectionHeader ∧
    Role.SectionHeader ≠ Role.Bullet := by
  decide

/-- C3 amended: the full role assignment differs between the two paths,
but the duplicated header predicate itself has not diverged: on every
line the inline check of generate_docx.py and the `is_header` function
of generate_pdf.py agree, including where each would raise. -/
theorem header_predicate_identical (l : List Char) :
    isHeaderDocxE l = isHeaderPdfE l := rfl

/-- C4: thanks to the blank guards, neither classification path ever
evaluates `line[0]` on an empty string: on every input string (empty or
punctuation-only included), every position, and every paragraph, the
exception-sensitive embeddings terminate with `ok` of the single Role
the total classifiers compute — no `IndexError` is ever reached. -/
theorem classifier_total_no_raise (s : String) (pos : Nat) (p : Para) :
    classifyE s pos = Except.ok (classify s pos) ∧
    pdfClassifyE p = Except.ok (pdfClassify p) :=
  ⟨classifyStrippedE_ok (stripL s.data) pos,
   pdfClassifyTextE_ok (cleanText (stripL p.text)) p.bold⟩

/-- C5 counterexample: in the DOCX→PDF path a failed conversion IS
followed by a second conversion attempt of the same file — the
text-file fallback of generate_pdf.py lines 160-165 — so the failing
file produces two messages, not one report per single attempt. -/
theorem pdf_fallback_retry_counterexample :
    pdfConvertMessages primarySample fallbackSample "resume-1.docx" =
      ["Error converting resume-1.docx to PDF: NotImplementedError",
       "Created (from text): resume-1.pdf"] ∧
    (pdfConvertMessages primarySample fallbackSample "resume-1.docx").length ≠ 1 := by
  constructor
  · rfl
  · decide

/-- C5 amended: a failing conversion is caught at the per-file
boundary, reported as a free-text message naming the file, the batch
continues with the next file, and the process exits zero.  In the
text→DOCX path the conversion is not retried — each file yields exactly
one message from its single attempt — but in the DOCX→PDF path a failed
primary conversion is followed by a second attempt via the text-file
fallback, so a failing file there yields exactly two messages, the
first being the error naming the file. -/
theorem per_file_failure_isolated (convert : String → Except String String)
    (files : List String) (f e : String)
    (primary fallback : String → Except String Unit) (g e2 : String)
    (hf : f ∈ files) (he : convert f = Except.error e)
    (hg : primary g = Except.error e2) :
    (mainDocx convert files).exitCode = 0 ∧
    (batchMessages convert files).length = files.length ∧
    convertMessage convert f = "Error converting " ++ f ++ ": " ++ e ∧
    (∀ i (h : i < files.length),
      (batchMessages convert files).get
        ⟨i, by rw [batchMessages, List.length_map]; exact h⟩ =
        convertMessage convert (files.get ⟨i, h⟩)) ∧
    (pdfConvertMessages primary fallback g).length = 2 ∧
    ∀ m ∈ pdfConvertMessages primary fallback g,
      m = "Error converting " ++ g ++ " to PDF: " ++ e2 ∨
      m = "Created (from text): " ++ pdfName g ∨
      (∃ e3, fallback (txtName g) = Except.error e3 ∧
        m = "Fallback also failed: " ++ e3) := by
  refine ⟨?_, ?_, ?_, ?_, ?_, ?_⟩
  · unfold mainDocx
    split <;> rfl
  · simp [batchMessages]
  · simp [convertMessage, he]
  · intro i h
    simp [batchMessages]
  · unfold pdfConvertMessages
    rw [hg]
    cases fallback (txtName g) <;> simp
  · intro m hm
    unfold pdfConvertMessages at hm
    rw [hg] at hm
    cases hfb : fallback (txtName g) with
    | ok u =>
      rw [hfb] at hm
      simp at hm
      rcases hm with hm | hm
      · exact Or.inl hm
      · exact Or.inr (Or.inl hm)
    | error e3 =>
      rw [hfb] at hm
      simp at hm
      rcases hm with hm | hm
      · exact Or.inl hm
      · exact Or.inr (Or.inr ⟨e3, rfl, hm⟩)

/-- Witness for the amended C5: a three-file DOCX batch whose second
conversion fails, and a PDF conversion whose primary attempt fails and
falls back. -/
theorem per_file_failure_isolated_witness :
    (mainDocx convertSample ["resume-1.txt", "resume-2.txt", "resume-3.txt"]).exitCode
      = 0 ∧
    convertMessage convertSample "resume-2.txt" =
      "Error converting resume-2.txt: boom" ∧
    (pdfConvertMessages primarySample fallbackSample "resume-2.docx").length = 2 := by
  have h := per_file_failure_isolated convertSample
    ["resume-1.txt", "resume-2.txt", "resume-3.txt"] "resume-2.txt" "boom"
    primarySample fallbackSample "resume-2.docx" "NotImplementedError"
    (by simp) (by rfl) (by rfl)
  exact ⟨h.1, h.2.2.1, h.2.2.2.2.1⟩

/-- C6 counterexample: at position 0 a 100-character line containing
the `@` marker is not matched by the Title rule (`position == 0 and
len(line) < 100` fails), so the claim places it under the Contact rule;
but the code's first branch fires on `is_contact` alone and renders the
14-pt centered Title style (`Pt(14) if i == 0`), so the classification
is Title, not Contact. -/
theorem contact_position_zero_counterexample :
    (stripL (String.data longContactLine)).length = 100 ∧
    hasContactMarker (stripL (String.data longContactLine)) = true ∧
    classify longContactLine 0 = Role.Title ∧
    classify longContactLine 0 ≠ Role.Contact := by
  decide

/-- C6 amended: Contact classification happens only at positions 1 and
2: at positions ≥ 3 and at position 0 the classifier never returns
Contact — at position 0 a marker line takes the Title branch even when
the Title rule's length bound fails — and at positions 1 and 2 a
non-blank line containing a contact marker is classified Contact. -/
theorem contact_rule_positions (s : String) (pos : Nat) :
    (3 ≤ pos → classify s pos ≠ Role.Contact) ∧
    (pos = 0 → classify s pos ≠ Role.Contact) ∧
    (pos < 3 → pos ≠ 0 → stripL s.data ≠ [] →
      hasContactMarker (stripL s.data) = true → classify s pos = Role.Contact) := by
  refine ⟨?_, ?_, ?_⟩
  · intro h3
    have hc : contactOrTitle pos (stripL s.data) = false := by
      unfold contactOrTitle is_contact
      have h1 : decide (pos < 3) = false := by simp; omega
      have h2 : decide (pos = 0) = false := by simp; omega
      simp [h1, h2]
    exact classifyStripped_ne_contact hc
  · intro h0
    subst h0
    by_cases hct : contactOrTitle 0 (stripL s.data) = true
    · unfold classify classifyStripped
      by_cases hb : stripL s.data = []
      · rw [if_pos hb]
        simp
      · rw [if_neg hb, if_pos hct, if_pos rfl]
        simp
    · exact classifyStripped_ne_contact (by simpa using hct)
  · intro h3 h0 hne hm
    have hct : contactOrTitle pos (stripL s.data) = true := by
      unfold contactOrTitle is_contact
      simp [h3, hm]
    unfold classify classifyStripped
    rw [if_neg hne, if_pos hct, if_neg h0]

/-- Witness for the amended C6: a marker line is Contact at position 1,
and not Contact at positions 0 and 7. -/
theorem contact_rule_positions_witness :
    classify "john@example.com" 7 ≠ Role.Contact ∧
    classify "john@example.com" 0 ≠ Role.Contact ∧
    classify "john@example.com" 1 = Role.Contact :=
  ⟨(contact_rule_positions "john@example.com" 7).1 (by omega),
   (contact_rule_positions "john@example.com" 0).2.1 rfl,
   (contact_rule_positions "john@example.com" 1).2.2 (by omega) (by omega)
     (by decide) (by decide)⟩

/-- C7: classification is deterministic in (line, position): the
priority-ordered rule relation read off the code fires on exactly the
value `classify` computes, and any two roles it relates to the same
(line, position) are equal — there is no hidden state, randomness or
I/O, so re-running classification on an unchanged document reproduces
the identical Role sequence. -/
theorem classify_deterministic (s : String) (pos : Nat) :
    RuleFires (stripL s.data) pos (classify s pos) ∧
    ∀ r₁ r₂ : Role, RuleFires (stripL s.data) pos r₁ →
      RuleFires (stripL s.data) pos r₂ → r₁ = r₂ :=
  ⟨ruleFires_classifyStripped (stripL s.data) pos,
   fun _ _ h₁ h₂ => ruleFires_det h₁ h₂⟩

/-- Witness for C7 at a concrete line and position. -/
theorem classify_deterministic_witness :
    RuleFires (stripL (String.data "SKILLS")) 5 Role.SectionHeader ∧
    Role.SectionHeader = Role.SectionHeader := by
  have h := classify_deterministic "SKILLS" 5
  have e : classify "SKILLS" 5 = Role.SectionHeader := by decide
  exact ⟨e ▸ h.1, h.2 Role.SectionHeader Role.SectionHeader (e ▸ h.1) (e ▸ h.1)⟩

/-- C8 counterexample: Python `str.replace` substitutes every
occurrence of the extension string, so for a processed filename whose
stem itself contains `.txt` the rest of the name is changed too — the
output is not the stem with only the final extension substituted. -/
theorem extension_substitution_counterexample :
    docxName "resume-a.txt.txt" = "resume-a.docx.docx" ∧
    docxName "resume-a.txt.txt" ≠ "resume-a.txt" ++ ".docx" := by
  decide

/-- C8 amended: for input names in which the source-extension string
does not occur before the final extension, the output name is the input
name with the extension substituted and the rest unchanged
(`.txt`→`.docx` and `.docx`→`.pdf`); in general `replace` substitutes
every occurrence. -/
theorem extension_substitution (stem : List Char)
    (h1 : ∀ i, i < stem.length →
      occursAt (String.data ".txt") (stem ++ String.data ".txt") i = false)
    (h2 : ∀ i, i < stem.length →
      occursAt (String.data ".docx") (stem ++ String.data ".docx") i = false) :
    docxNameL (stem ++ String.data ".txt") = stem ++ String.data ".docx" ∧
    pdfNameL (stem ++ String.data ".docx") = stem ++ String.data ".pdf" := by
  constructor
  · unfold docxNameL pyReplaceL
    exact pyReplaceAux_stem_append (String.data ".txt") (String.data ".docx")
      (by decide) stem _ h1 le_rfl
  · unfold pdfNameL pyReplaceL
    exact pyReplaceAux_stem_append (String.data ".docx") (String.data ".pdf")
      (by decide) stem _ h2 le_rfl

/-- Witness for the amended C8 on a well-formed resume filename. -/
theorem extension_substitution_witness :
    docxNameL (String.data "resume-1" ++ String.data ".txt") =
      String.data "resume-1" ++ String.data ".docx" ∧
    pdfNameL (String.data "resume-1" ++ String.data ".docx") =
      String.data "resume-1" ++ String.data ".pdf" :=
  extension_substitution (String.data "resume-1") (by decide) (by decide)

/-- C9: a line with no non-whitespace characters (the empty string
included) is classified Blank at every position — the blank guard runs
before every other rule, whatever the other predicates would say. -/
theorem blank_line_blank (s : String) (pos : Nat)
    (h : ∀ c ∈ s.data, pySpace c = true) : classify s pos = Role.Blank := by
  unfold classify
  rw [stripL_of_all_space h]
  simp [classifyStripped]

/-- Witness for C9 on the empty string and a whitespace-only line. -/
theorem blank_line_blank_witness :
    classify "" 0 = Role.Blank ∧ classify "   " 9 = Role.Blank :=
  ⟨blank_line_blank "" 0 (by decide), blank_line_blank "   " 9 (by decide)⟩

/-- C10: the text→DOCX conversion emits exactly one paragraph per input
line, in input order: the paragraph list equals the per-line map over
the enumerated split lines, so its length is the number of lines. -/
theorem one_paragraph_per_line (content : String) :
    docxParas content =
      ((pyLinesOf content.data).enumFrom 0).map (fun p => mkPara p.1 p.2) ∧
    (docxParas content).length = (pyLinesOf content.data).length := by
  have h := processLines_eq (pyLinesOf content.data) [] 0
  constructor
  · simpa [docxParas] using h
  · unfold docxParas
    rw [h]
    simp

end ATS
